import Mathlib

/-!
Shallow embedding of the ecareplus backend (Express + Prisma controllers)
for verifying the natural-language specification.

Sources:
  src/src/controllers/doctor.controller.ts  (doctor pipeline)
  src/src/index.ts                          (patient pipeline, saved doctors)
  src/unnamed/part_002                      (Google OAuth reconciliation)

JavaScript dynamic values relevant to the handlers are modelled as Option
types; JS truthiness of request-body fields is modelled by the truthy*
helpers (absent = none; empty string and the number 0 are falsy).
Timestamps are milliseconds as Nat.  Randomness, generated ids and the
bcrypt hash are passed in as explicit parameters.
-/

namespace ECare

/-- Prisma enum Gender. -/
inductive Gender where
  | MALE | FEMALE | OTHER | PREFER_NOT_TO_SAY
deriving DecidableEq, Repr

/-- Prisma enum OnboardingStep (doctor). -/
inductive OnboardingStep where
  | EMAIL_VERIFIED | PERSONAL_INFO_COMPLETE | PROFESSIONAL_INFO_COMPLETE
  | AVAILABILITY_COMPLETE | COMPLETE
deriving DecidableEq, Repr

/-- Prisma enum PatientOnboardingStep. -/
inductive PatientOnboardingStep where
  | EMAIL_VERIFIED | PERSONAL_INFO_COMPLETE
deriving DecidableEq, Repr

/-- Prisma enum DayOfWeek. -/
inductive DayOfWeek where
  | MONDAY | TUESDAY | WEDNESDAY | THURSDAY | FRIDAY | SATURDAY | SUNDAY
deriving DecidableEq, Repr

/-- A row of the Doctor table. -/
structure Doctor where
  id : String
  email : String
  password : Option String := none
  googleId : Option String := none
  otp : Option String := none
  otpExpiry : Option Nat := none
  onboardingStep : OnboardingStep := .EMAIL_VERIFIED
  name : Option String := none
  age : Option Int := none
  gender : Option Gender := none
  languages : List String := []
  contactNumber : Option String := none
  whatsappNumber : Option String := none
  specialty : Option String := none
  yearsOfExperience : Option Int := none
  latestQualification : Option String := none
  address : Option String := none
  city : Option String := none
  locality : Option String := none
  availableDays : List DayOfWeek := []
  availableTiming : Option String := none
  viewCount : Nat := 0
deriving DecidableEq, Repr

/-- A row of the Patient table. -/
structure Patient where
  id : String
  email : String
  password : Option String := none
  googleId : Option String := none
  otp : Option String := none
  otpExpiry : Option Nat := none
  onboardingStep : PatientOnboardingStep := .EMAIL_VERIFIED
  name : Option String := none
  phone : Option String := none
  gender : Option Gender := none
  age : Option Int := none
  city : Option String := none
deriving DecidableEq, Repr

/-- JS truthiness for a possibly-absent string body field. -/
def truthyStr : Option String → Bool
  | none => false
  | some s => s ≠ ""

/-- JS truthiness for a possibly-absent numeric body field (0 is falsy). -/
def truthyInt : Option Int → Bool
  | none => false
  | some n => n ≠ 0

/-- Result of a handler: success status or an error status with its code. -/
inductive Outcome where
  | ok (status : Nat)
  | err (status : Nat) (code : String)
deriving DecidableEq, Repr

/-- JS String.prototype.trim. -/
def jsTrim (s : String) : String :=
  ⟨((s.data.dropWhile Char.isWhitespace).reverse.dropWhile Char.isWhitespace).reverse⟩

/-- A character admitted by the regex class [^\s@]. -/
def emailChar (c : Char) : Bool := !c.isWhitespace && c != '@'

/-- The tail after the at sign splits as q ++ dot ++ r with q and r nonempty. -/
def hasDotSplit (cs : List Char) : Bool :=
  (List.range cs.length).any fun i =>
    1 ≤ i && i + 2 ≤ cs.length && cs.get? i == some '.'

/-- validateEmail: test of the anchored regex local,at,domain,dot,tld where
every class excludes whitespace and the at sign. -/
def validateEmail (s : String) : Bool :=
  match s.data.findIdx? (fun c => c == '@') with
  | none => false
  | some j =>
    let p := s.data.take j
    let t := s.data.drop (j + 1)
    !p.isEmpty && p.all emailChar && t.all emailChar && hasDotSplit t

/-- validatePassword: returns the first failing rule message, none if valid. -/
def validatePassword (p : String) : Option String :=
  if p.length < 8 then some "Password must be at least 8 characters long"
  else if !(p.data.any Char.isUpper) then
    some "Password must contain at least one uppercase letter"
  else if !(p.data.any Char.isLower) then
    some "Password must contain at least one lowercase letter"
  else if !(p.data.any Char.isDigit) then
    some "Password must contain at least one number"
  else none

/-- Match an optional single character from a class, with backtracking. -/
def matchOpt (p : Char → Bool) (cs : List Char) (k : List Char → Bool) : Bool :=
  k cs || (match cs with
           | c :: rest => p c && k rest
           | [] => false)

/-- Match between lo and hi digits, trying every admissible count. -/
def matchDigits (lo : Nat) : Nat → List Char → (List Char → Bool) → Bool
  | 0, cs, k => lo == 0 && k cs
  | hi + 1, cs, k =>
    (lo == 0 && k cs) ||
    (match cs with
     | c :: rest => c.isDigit && matchDigits (lo - 1) hi rest k
     | [] => false)

/-- The separator class [-\s.] of the phone regex. -/
def phoneSep (c : Char) : Bool := c == '-' || c == '.' || c.isWhitespace

/-- The anchored phone regex of validatePhoneNumber, as a backtracking matcher. -/
def phoneRegexMatch (cs : List Char) : Bool :=
  matchOpt (fun c => c == '+') cs fun cs =>
  matchOpt (fun c => c == '(') cs fun cs =>
  matchDigits 1 4 cs fun cs =>
  matchOpt (fun c => c == ')') cs fun cs =>
  matchOpt phoneSep cs fun cs =>
  matchOpt (fun c => c == '(') cs fun cs =>
  matchDigits 1 4 cs fun cs =>
  matchOpt (fun c => c == ')') cs fun cs =>
  matchOpt phoneSep cs fun cs =>
  matchDigits 1 9 cs fun cs => cs.isEmpty

/-- validatePhoneNumber: strip whitespace, then test the phone regex. -/
def validatePhoneNumber (phone : String) : Bool :=
  phoneRegexMatch (phone.data.filter (fun c => !c.isWhitespace))

/-- One half of the timing pattern: a valid 24-hour clock time HH:MM. -/
def validClock (h1 h2 m1 m2 : Char) : Bool :=
  (((h1 == '0' || h1 == '1') && h2.isDigit) ||
   (h1 == '2' && ('0' ≤ h2 && h2 ≤ '3'))) &&
  ('0' ≤ m1 && m1 ≤ '5') && m2.isDigit

/-- validateTiming: the anchored strict HH:MM-HH:MM pattern. -/
def validateTiming (s : String) : Bool :=
  match s.data with
  | [h1, h2, c1, m1, m2, d, h3, h4, c2, m3, m4] =>
    c1 == ':' && c2 == ':' && d == '-' &&
    validClock h1 h2 m1 m2 && validClock h3 h4 m3 m4
  | _ => false

/-- A character of the regex class [0-9a-f] with the i flag. -/
def hexChar (c : Char) : Bool :=
  c.isDigit || ('a' ≤ c && c ≤ 'f') || ('A' ≤ c && c ≤ 'F')

/-- isValidUUID: the anchored 8-4-4-4-12 hex pattern, case-insensitive. -/
def isValidUUID (s : String) : Bool :=
  s.data.length == 36 &&
  (List.range 36).all fun i =>
    match s.data.get? i with
    | none => false
    | some c =>
      if i == 8 || i == 13 || i == 18 || i == 23 then c == '-' else hexChar c

/-- The OTP format gate: exactly six digits. -/
def isOtpFormat (s : String) : Bool :=
  s.data.length == 6 && s.data.all Char.isDigit

/-- generateOTP: floor of 100000 plus a random draw below 900000, as a numeral.
The randomness is the explicit parameter r. -/
def generateOTPNum (r : Nat) : Nat := 100000 + r % 900000

/-- The generated OTP is stored as its decimal string. -/
def generateOTP (r : Nat) : String := toString (generateOTPNum r)

/-- Parse a request gender string against Object.values of the Gender enum. -/
def parseGender : String → Option Gender
  | "MALE" => some .MALE
  | "FEMALE" => some .FEMALE
  | "OTHER" => some .OTHER
  | "PREFER_NOT_TO_SAY" => some .PREFER_NOT_TO_SAY
  | _ => none

/-- Parse a request day string against Object.values of the DayOfWeek enum. -/
def parseDay : String → Option DayOfWeek
  | "MONDAY" => some .MONDAY
  | "TUESDAY" => some .TUESDAY
  | "WEDNESDAY" => some .WEDNESDAY
  | "THURSDAY" => some .THURSDAY
  | "FRIDAY" => some .FRIDAY
  | "SATURDAY" => some .SATURDAY
  | "SUNDAY" => some .SUNDAY
  | _ => none


/-! ## Register (onboardingAuth, doctor variant) -/

/-- Whether the mail transport is configured and whether a send succeeds. -/
inductive MailOutcome where
  | noTransport | sendOk | sendFail
deriving DecidableEq, Repr

/-- The process environment bits read by the handler. -/
structure Env where
  production : Bool
  allowMockOtp : Bool
deriving DecidableEq, Repr

/-- Success payload of onboardingAuth. -/
structure AuthSuccess where
  status : Nat
  accountId : String
  mockOtp : Option String
  warning : Bool
deriving DecidableEq, Repr

/-- Result of onboardingAuth. -/
inductive AuthResult where
  | ok (s : AuthSuccess)
  | err (status : Nat) (code : String)
deriving DecidableEq, Repr

/-- The freshly created doctor row persisted by onboardingAuth. -/
def freshDoctor (newId e hashedPw otp : String) (expiry : Nat) : Doctor :=
  { id := newId, email := e, password := some hashedPw, otp := some otp,
    otpExpiry := some expiry, onboardingStep := .EMAIL_VERIFIED }

/-- onboardingAuth (doctor): validation, duplicate check, create, then mail.
newId models the generated row id, hashedPw the bcrypt hash of the password,
r the Math.random draw scaled to 900000, now the current time in ms. -/
def onboardingAuth (db : List Doctor) (email password : Option String)
    (newId hashedPw : String) (r : Nat) (now : Nat) (env : Env)
    (mail : MailOutcome) : AuthResult × List Doctor :=
  if ¬ (truthyStr email && truthyStr password) then
    (.err 400 "MISSING_FIELDS", db)
  else
    let e := email.getD ""
    let p := password.getD ""
    if ¬ validateEmail e then (.err 400 "INVALID_EMAIL", db)
    else if (validatePassword p).isSome then (.err 400 "INVALID_PASSWORD", db)
    else if (db.find? (fun d => decide (d.email = e))).isSome then
      (.err 409 "EMAIL_ALREADY_EXISTS", db)
    else
      let otp := generateOTP r
      let expiry := now + 10 * 60 * 1000
      let db' := db ++ [freshDoctor newId e hashedPw otp expiry]
      match mail with
      | .noTransport =>
        (.ok ⟨200, newId, if ¬ env.production then some otp else none, false⟩, db')
      | .sendOk => (.ok ⟨201, newId, none, false⟩, db')
      | .sendFail =>
        if ¬ env.production || env.allowMockOtp then
          (.ok ⟨200, newId, some otp, true⟩, db')
        else (.err 500 "EMAIL_SEND_FAILED", db')

/-! ## OTP verification (doctor and patient variants)

The account lookup by email is modelled on a single account: an email that
does not match the account is the not-found case. -/

/-- verifyOtp (doctor). now is the current time in ms. -/
def verifyOtp (d : Doctor) (email otp : Option String) (now : Nat) :
    Outcome × Doctor :=
  if ¬ (truthyStr email && truthyStr otp) then (.err 400 "MISSING_FIELDS", d)
  else
    let e := email.getD ""
    let o := otp.getD ""
    if ¬ validateEmail e then (.err 400 "INVALID_EMAIL", d)
    else if ¬ isOtpFormat o then (.err 400 "INVALID_OTP_FORMAT", d)
    else if e ≠ d.email then (.err 404 "DOCTOR_NOT_FOUND", d)
    else
      match d.otp with
      | none => (.err 400 "OTP_NOT_FOUND", d)
      | some stored =>
        if stored = "" then (.err 400 "OTP_NOT_FOUND", d)
        else if stored ≠ o then (.err 400 "INVALID_OTP", d)
        else
          let verified : Doctor :=
            { d with otp := none, otpExpiry := none,
                     onboardingStep := .PERSONAL_INFO_COMPLETE }
          match d.otpExpiry with
          | some exp =>
            if now > exp then (.err 400 "OTP_EXPIRED", d)
            else (.ok 200, verified)
          | none => (.ok 200, verified)

/-- verifyOtp (patient): same logic over the Patient row. -/
def verifyOtpPatient (p : Patient) (email otp : Option String) (now : Nat) :
    Outcome × Patient :=
  if ¬ (truthyStr email && truthyStr otp) then (.err 400 "MISSING_FIELDS", p)
  else
    let e := email.getD ""
    let o := otp.getD ""
    if ¬ validateEmail e then (.err 400 "INVALID_EMAIL", p)
    else if ¬ isOtpFormat o then (.err 400 "INVALID_OTP_FORMAT", p)
    else if e ≠ p.email then (.err 404 "PATIENT_NOT_FOUND", p)
    else
      match p.otp with
      | none => (.err 400 "OTP_NOT_FOUND", p)
      | some stored =>
        if stored = "" then (.err 400 "OTP_NOT_FOUND", p)
        else if stored ≠ o then (.err 400 "INVALID_OTP", p)
        else
          let verified : Patient :=
            { p with otp := none, otpExpiry := none,
                     onboardingStep := .PERSONAL_INFO_COMPLETE }
          match p.otpExpiry with
          | some exp =>
            if now > exp then (.err 400 "OTP_EXPIRED", p)
            else (.ok 200, verified)
          | none => (.ok 200, verified)

/-! ## Doctor profile-completion endpoints -/

/-- Request body of the doctor personal-info endpoint. -/
structure DocPIBody where
  doctorId : Option String
  name : Option String
  age : Option Int
  gender : Option String
  languages : Option (List String)
  contactNumber : Option String
  whatsappNumber : Option String
deriving DecidableEq, Repr

/-- The field-validation prefix of the doctor personal-info handler:
the first early-return error, or none when validation passes. -/
def docPIValidate (b : DocPIBody) : Option Outcome :=
  if ¬ (truthyStr b.doctorId && truthyStr b.name && truthyInt b.age &&
        truthyStr b.gender && b.languages.isSome &&
        truthyStr b.contactNumber && truthyStr b.whatsappNumber) then
    some (.err 400 "MISSING_FIELDS")
  else if (jsTrim (b.name.getD "")).length < 2 then
    some (.err 400 "INVALID_NAME")
  else if ¬ (18 ≤ b.age.getD 0 ∧ b.age.getD 0 ≤ 100) then
    some (.err 400 "INVALID_AGE")
  else if (parseGender (b.gender.getD "")).isNone then
    some (.err 400 "INVALID_GENDER")
  else if (b.languages.getD []).length = 0 then
    some (.err 400 "INVALID_LANGUAGES")
  else if ¬ validatePhoneNumber (b.contactNumber.getD "") then
    some (.err 400 "INVALID_CONTACT_NUMBER")
  else if ¬ validatePhoneNumber (b.whatsappNumber.getD "") then
    some (.err 400 "INVALID_WHATSAPP_NUMBER")
  else none

/-- Doctor personal-info endpoint: validate, find by id, gate on the step,
then update fields and advance the step. -/
def onboardingPersonalInfo (d : Doctor) (b : DocPIBody) : Outcome × Doctor :=
  match docPIValidate b with
  | some o => (o, d)
  | none =>
    if b.doctorId ≠ some d.id then (.err 404 "DOCTOR_NOT_FOUND", d)
    else if d.onboardingStep ≠ .PERSONAL_INFO_COMPLETE then
      (.err 400 "INVALID_ONBOARDING_STEP", d)
    else
      (.ok 200,
       { d with name := some (jsTrim (b.name.getD "")),
                age := some (b.age.getD 0),
                gender := parseGender (b.gender.getD ""),
                languages := (b.languages.getD []).map jsTrim,
                contactNumber := some (jsTrim (b.contactNumber.getD "")),
                whatsappNumber := some (jsTrim (b.whatsappNumber.getD "")),
                onboardingStep := .PROFESSIONAL_INFO_COMPLETE })

/-- Request body of the doctor professional-info endpoint. -/
structure DocProfBody where
  doctorId : Option String
  specialty : Option String
  yearsOfExperience : Option Int
  latestQualification : Option String
deriving DecidableEq, Repr

/-- Field validation of the professional-info handler.  Note the presence
check of yearsOfExperience compares against undefined, not truthiness. -/
def docProfValidate (b : DocProfBody) : Option Outcome :=
  if ¬ (truthyStr b.doctorId && truthyStr b.specialty &&
        b.yearsOfExperience.isSome && truthyStr b.latestQualification) then
    some (.err 400 "MISSING_FIELDS")
  else if (jsTrim (b.specialty.getD "")).length < 2 then
    some (.err 400 "INVALID_SPECIALTY")
  else if ¬ (0 ≤ b.yearsOfExperience.getD 0 ∧ b.yearsOfExperience.getD 0 ≤ 50) then
    some (.err 400 "INVALID_YEARS_OF_EXPERIENCE")
  else if (jsTrim (b.latestQualification.getD "")).length < 2 then
    some (.err 400 "INVALID_QUALIFICATION")
  else none

/-- Doctor professional-info endpoint. -/
def onboardingProfessionalInfo (d : Doctor) (b : DocProfBody) :
    Outcome × Doctor :=
  match docProfValidate b with
  | some o => (o, d)
  | none =>
    if b.doctorId ≠ some d.id then (.err 404 "DOCTOR_NOT_FOUND", d)
    else if d.onboardingStep ≠ .PROFESSIONAL_INFO_COMPLETE then
      (.err 400 "INVALID_ONBOARDING_STEP", d)
    else
      (.ok 200,
       { d with specialty := some (jsTrim (b.specialty.getD "")),
                yearsOfExperience := some (b.yearsOfExperience.getD 0),
                latestQualification := some (jsTrim (b.latestQualification.getD "")),
                onboardingStep := .AVAILABILITY_COMPLETE })

/-- Request body of the doctor availability endpoint. -/
structure DocAvailBody where
  doctorId : Option String
  address : Option String
  city : Option String
  locality : Option String
  availableDays : Option (List String)
  availableTiming : Option String
deriving DecidableEq, Repr

/-- Field validation of the availability handler. -/
def docAvailValidate (b : DocAvailBody) : Option Outcome :=
  if ¬ (truthyStr b.doctorId && truthyStr b.address && truthyStr b.city &&
        truthyStr b.locality && b.availableDays.isSome &&
        truthyStr b.availableTiming) then
    some (.err 400 "MISSING_FIELDS")
  else if (jsTrim (b.address.getD "")).length < 5 then
    some (.err 400 "INVALID_ADDRESS")
  else if (jsTrim (b.city.getD "")).length < 2 then
    some (.err 400 "INVALID_CITY")
  else if (jsTrim (b.locality.getD "")).length < 2 then
    some (.err 400 "INVALID_LOCALITY")
  else if (b.availableDays.getD []).length = 0 then
    some (.err 400 "INVALID_AVAILABLE_DAYS")
  else if ¬ (b.availableDays.getD []).all (fun s => (parseDay s).isSome) then
    some (.err 400 "INVALID_DAY")
  else if ¬ validateTiming (b.availableTiming.getD "") then
    some (.err 400 "INVALID_TIMING")
  else none

/-- Doctor availability endpoint: the final step, transitions to COMPLETE. -/
def onboardingAvailability (d : Doctor) (b : DocAvailBody) : Outcome × Doctor :=
  match docAvailValidate b with
  | some o => (o, d)
  | none =>
    if b.doctorId ≠ some d.id then (.err 404 "DOCTOR_NOT_FOUND", d)
    else if d.onboardingStep ≠ .AVAILABILITY_COMPLETE then
      (.err 400 "INVALID_ONBOARDING_STEP", d)
    else
      (.ok 200,
       { d with address := some (jsTrim (b.address.getD "")),
                city := some (jsTrim (b.city.getD "")),
                locality := some (jsTrim (b.locality.getD "")),
                availableDays := (b.availableDays.getD []).filterMap parseDay,
                availableTiming := some (jsTrim (b.availableTiming.getD "")),
                onboardingStep := .COMPLETE })

/-! ## Patient personal-info endpoint -/

/-- Request body of the patient personal-info endpoint. -/
structure PatPIBody where
  patientId : Option String
  name : Option String
  phone : Option String
  gender : Option String
  age : Option Int
  city : Option String
deriving DecidableEq, Repr

/-- Field validation of the patient personal-info handler.  All presence
checks use truthiness, so age 0 is treated as missing. -/
def patPIValidate (b : PatPIBody) : Option Outcome :=
  if ¬ (truthyStr b.patientId && truthyStr b.name && truthyStr b.phone &&
        truthyStr b.gender && truthyInt b.age && truthyStr b.city) then
    some (.err 400 "MISSING_FIELDS")
  else if (jsTrim (b.name.getD "")).length < 2 then
    some (.err 400 "INVALID_NAME")
  else if ¬ validatePhoneNumber (b.phone.getD "") then
    some (.err 400 "INVALID_PHONE")
  else if (parseGender (b.gender.getD "")).isNone then
    some (.err 400 "INVALID_GENDER")
  else if ¬ (1 ≤ b.age.getD 0 ∧ b.age.getD 0 ≤ 120) then
    some (.err 400 "INVALID_AGE")
  else if (jsTrim (b.city.getD "")).length < 2 then
    some (.err 400 "INVALID_CITY")
  else none

/-- Patient personal-info endpoint.  The update writes the profile fields
but does not change the onboardingStep field. -/
def patientPersonalInfo (p : Patient) (b : PatPIBody) : Outcome × Patient :=
  match patPIValidate b with
  | some o => (o, p)
  | none =>
    if b.patientId ≠ some p.id then (.err 404 "PATIENT_NOT_FOUND", p)
    else if p.onboardingStep ≠ .PERSONAL_INFO_COMPLETE then
      (.err 400 "INVALID_ONBOARDING_STEP", p)
    else
      (.ok 200,
       { p with name := some (jsTrim (b.name.getD "")),
                phone := some (jsTrim (b.phone.getD "")),
                gender := parseGender (b.gender.getD ""),
                age := some (b.age.getD 0),
                city := some (jsTrim (b.city.getD "")) })

/-! ## Google OAuth reconciliation (handleGoogleAuth) -/

/-- The JSON object returned by handleGoogleAuth on success. -/
structure GoogleResult where
  isNewUser : Bool
  isReturningIncompleteUser : Bool
  userId : String
  redirectTo : String
deriving DecidableEq, Repr

/-- A doctor row created by the Google flow: email verification skipped. -/
def googleDoctor (newId email googleId name : String) : Doctor :=
  { id := newId, email := email, googleId := some googleId,
    name := some name, onboardingStep := .PERSONAL_INFO_COMPLETE }

/-- handleGoogleAuth, doctor branch.  newId models the id generated when a
fresh row is created. -/
def handleGoogleAuthDoctor (db : List Doctor) (googleId email name newId : String) :
    GoogleResult × List Doctor :=
  match db.find? (fun d => decide (d.googleId = some googleId)) with
  | some d =>
    if d.onboardingStep = .COMPLETE then
      (⟨false, false, d.id, "/dashboard"⟩, db)
    else
      (⟨false, true, d.id, "/onboarding"⟩, db)
  | none =>
    match db.find? (fun d => decide (d.email = email)) with
    | some d =>
      if d.onboardingStep ≠ .COMPLETE then
        let d' : Doctor :=
          { d with googleId := some googleId,
                   name := if name ≠ "" then some name else d.name,
                   onboardingStep := .PERSONAL_INFO_COMPLETE }
        (⟨false, true, d.id, "/onboarding"⟩,
         db.map (fun x => if x.email = email then d' else x))
      else
        let d' : Doctor := { d with googleId := some googleId }
        (⟨false, false, d.id, "/dashboard"⟩,
         db.map (fun x => if x.email = email then d' else x))
    | none =>
      (⟨true, false, newId, "/onboarding"⟩,
       db ++ [googleDoctor newId email googleId name])

/-- A patient row created by the Google flow. -/
def googlePatient (newId email googleId name : String) : Patient :=
  { id := newId, email := email, googleId := some googleId,
    name := some name, onboardingStep := .PERSONAL_INFO_COMPLETE }

/-- handleGoogleAuth, patient branch.  When the googleId matches, routing is
decided by truthiness of the stored name alone. -/
def handleGoogleAuthPatient (db : List Patient) (googleId email name newId : String) :
    GoogleResult × List Patient :=
  match db.find? (fun p => decide (p.googleId = some googleId)) with
  | some p =>
    (⟨false, false, p.id,
      if truthyStr p.name then "/dashboard" else "/onboarding"⟩, db)
  | none =>
    match db.find? (fun p => decide (p.email = email)) with
    | some p =>
      if ¬ (truthyStr p.name && truthyStr p.phone && truthyStr p.city) then
        let p' : Patient :=
          { p with googleId := some googleId,
                   name := if name ≠ "" then some name else p.name,
                   onboardingStep := .PERSONAL_INFO_COMPLETE }
        (⟨false, true, p.id, "/onboarding"⟩,
         db.map (fun x => if x.email = email then p' else x))
      else
        let p' : Patient := { p with googleId := some googleId }
        (⟨false, false, p.id, "/dashboard"⟩,
         db.map (fun x => if x.email = email then p' else x))
    | none =>
      (⟨true, false, newId, "/onboarding"⟩,
       db ++ [googlePatient newId email googleId name])

/-! ## Saved doctors (bookmark relation) -/

/-- Datastore slice used by the bookmark endpoints: the rows of the two
account tables and the SavedDoctors relation as (patientId, doctorId) pairs. -/
structure Store where
  patients : List Patient
  doctors : List Doctor
  saved : List (String × String)
deriving DecidableEq, Repr

/-- saveDoctor: missing check, UUID shape checks, existence checks,
duplicate check against the relation table, then insert. -/
def saveDoctor (st : Store) (patientId doctorId : Option String) :
    Outcome × Store :=
  if ¬ (truthyStr patientId && truthyStr doctorId) then
    (.err 400 "MISSING_FIELDS", st)
  else
    let pid := patientId.getD ""
    let did := doctorId.getD ""
    if ¬ isValidUUID pid then (.err 400 "INVALID_PATIENT_ID_FORMAT", st)
    else if ¬ isValidUUID did then (.err 400 "INVALID_DOCTOR_ID_FORMAT", st)
    else if (st.patients.find? (fun p => decide (p.id = pid))).isNone then
      (.err 404 "PATIENT_NOT_FOUND", st)
    else if (st.doctors.find? (fun d => decide (d.id = did))).isNone then
      (.err 404 "DOCTOR_NOT_FOUND", st)
    else if (pid, did) ∈ st.saved then
      (.err 400 "DOCTOR_ALREADY_SAVED", st)
    else (.ok 200, { st with saved := st.saved ++ [(pid, did)] })

/-- unsaveDoctor: missing check, patient existence, then a disconnect that
removes the pair from the relation and is a no-op when it is absent. -/
def unsaveDoctor (st : Store) (patientId doctorId : Option String) :
    Outcome × Store :=
  if ¬ (truthyStr patientId && truthyStr doctorId) then
    (.err 400 "MISSING_FIELDS", st)
  else
    let pid := patientId.getD ""
    let did := doctorId.getD ""
    if (st.patients.find? (fun p => decide (p.id = pid))).isNone then
      (.err 404 "PATIENT_NOT_FOUND", st)
    else
      (.ok 200,
       { st with saved := st.saved.filter (fun pr => decide (pr ≠ (pid, did))) })

/-- getSavedDoctors, reduced to the ids of the connected doctor rows. -/
def getSavedDoctorIds (st : Store) (pid : String) : List String :=
  (st.saved.filter (fun pr => decide (pr.1 = pid))).map Prod.snd

/-! ## Theorems -/

/-- C10: required-field presence on the onboarding endpoints is decided by
JS truthiness, so the number 0 counts as missing: a Seeker personal-info
request with age 0 fails MISSING_FIELDS (never INVALID_AGE), and likewise a
Provider personal-info request with age 0; the one exception is
yearsOfExperience on the Provider professional-info endpoint, whose presence
is compared against undefined, so the in-range value 0 is accepted and
persisted. -/
theorem C10_truthiness :
    (∀ (p : Patient) (b : PatPIBody), b.age = some 0 →
      patientPersonalInfo p b = (.err 400 "MISSING_FIELDS", p)) ∧
    (∀ (d : Doctor) (b : DocPIBody), b.age = some 0 →
      onboardingPersonalInfo d b = (.err 400 "MISSING_FIELDS", d)) ∧
    (∀ (d : Doctor) (b : DocProfBody), b.yearsOfExperience = some 0 →
      docProfValidate b = none → b.doctorId = some d.id →
      d.onboardingStep = .PROFESSIONAL_INFO_COMPLETE →
      (onboardingProfessionalInfo d b).1 = .ok 200 ∧
      (onboardingProfessionalInfo d b).2.yearsOfExperience = some 0) := by
  refine ⟨?_, ?_, ?_⟩
  · intro p b h
    simp [patientPersonalInfo, patPIValidate, h, truthyInt]
  · intro d b h
    simp [onboardingPersonalInfo, docPIValidate, h, truthyInt]
  · intro d b hy hv hid hstep
    simp [onboardingProfessionalInfo, hv, hid, hstep, hy]

/-- C10 witness: concrete instances of all three conjuncts. -/
theorem C10_witness :
    patientPersonalInfo
      { id := "p1", email := "s@x.com",
        onboardingStep := .PERSONAL_INFO_COMPLETE }
      { patientId := some "p1", name := some "Jo", phone := some "1234567890",
        gender := some "MALE", age := some 0, city := some "Pune" } =
      (.err 400 "MISSING_FIELDS",
       { id := "p1", email := "s@x.com",
         onboardingStep := .PERSONAL_INFO_COMPLETE }) ∧
    (onboardingProfessionalInfo
      { id := "d1", email := "d@x.com",
        onboardingStep := .PROFESSIONAL_INFO_COMPLETE }
      { doctorId := some "d1", specialty := some "Cardiology",
        yearsOfExperience := some 0,
        latestQualification := some "MD" }).1 = .ok 200 ∧
    (onboardingProfessionalInfo
      { id := "d1", email := "d@x.com",
        onboardingStep := .PROFESSIONAL_INFO_COMPLETE }
      { doctorId := some "d1", specialty := some "Cardiology",
        yearsOfExperience := some 0,
        latestQualification := some "MD" }).2.yearsOfExperience = some 0 := by
  refine ⟨C10_truthiness.1 _ _ rfl, ?_, ?_⟩
  · exact (C10_truthiness.2.2 _ _ rfl (by decide) rfl rfl).1
  · exact (C10_truthiness.2.2 _ _ rfl (by decide) rfl rfl).2

/-- C3 counterexample: a Seeker who has already completed the personal-info
step can invoke the endpoint again with valid fields; the second call
succeeds with HTTP 200 and overwrites the stored name, instead of failing
INVALID_ONBOARDING_STEP as the claim states. -/
theorem C3_counterexample :
    (patientPersonalInfo
      { id := "p1", email := "s@x.com",
        onboardingStep := .PERSONAL_INFO_COMPLETE }
      { patientId := some "p1", name := some "Old Name",
        phone := some "1234567890", gender := some "MALE",
        age := some 30, city := some "Pune" }).1 = .ok 200 ∧
    (patientPersonalInfo
      { id := "p1", email := "s@x.com",
        onboardingStep := .PERSONAL_INFO_COMPLETE }
      { patientId := some "p1", name := some "Old Name",
        phone := some "1234567890", gender := some "MALE",
        age := some 30, city := some "Pune" }).2.name = some "Old Name" ∧
    (patientPersonalInfo
      (patientPersonalInfo
        { id := "p1", email := "s@x.com",
          onboardingStep := .PERSONAL_INFO_COMPLETE }
        { patientId := some "p1", name := some "Old Name",
          phone := some "1234567890", gender := some "MALE",
          age := some 30, city := some "Pune" }).2
      { patientId := some "p1", name := some "New Name",
        phone := some "1234567890", gender := some "MALE",
        age := some 30, city := some "Pune" }).1 = .ok 200 ∧
    (patientPersonalInfo
      (patientPersonalInfo
        { id := "p1", email := "s@x.com",
          onboardingStep := .PERSONAL_INFO_COMPLETE }
        { patientId := some "p1", name := some "Old Name",
          phone := some "1234567890", gender := some "MALE",
          age := some 30, city := some "Pune" }).2
      { patientId := some "p1", name := some "New Name",
        phone := some "1234567890", gender := some "MALE",
        age := some 30, city := some "Pune" }).2.name = some "New Name" := by
  decide

/-- C3 amended: the Seeker personal-info endpoint never advances the step
marker, so any Seeker account at PERSONAL_INFO_COMPLETE, including one that
already completed the step, succeeds again on valid fields and the stored
fields are overwritten; only an account at EMAIL_VERIFIED is rejected with
INVALID_ONBOARDING_STEP, unchanged. -/
theorem C3_amended_redo_allowed :
    (∀ (p : Patient) (b : PatPIBody), patPIValidate b = none →
      b.patientId = some p.id → p.onboardingStep = .PERSONAL_INFO_COMPLETE →
      (patientPersonalInfo p b).1 = .ok 200 ∧
      (patientPersonalInfo p b).2.onboardingStep = .PERSONAL_INFO_COMPLETE ∧
      (patientPersonalInfo p b).2.name = some (jsTrim (b.name.getD "")) ∧
      (patientPersonalInfo p b).2.age = some (b.age.getD 0) ∧
      (patientPersonalInfo p b).2.city = some (jsTrim (b.city.getD ""))) ∧
    (∀ (p : Patient) (b : PatPIBody), patPIValidate b = none →
      b.patientId = some p.id → p.onboardingStep = .EMAIL_VERIFIED →
      patientPersonalInfo p b = (.err 400 "INVALID_ONBOARDING_STEP", p)) := by
  constructor
  · intro p b hv hid hstep
    simp [patientPersonalInfo, hv, hid, hstep]
  · intro p b hv hid hstep
    simp [patientPersonalInfo, hv, hid, hstep]

/-- C3 witness: concrete instance of both parts of the amended claim. -/
theorem C3_witness :
    (patientPersonalInfo
      { id := "p1", email := "s@x.com",
        onboardingStep := .PERSONAL_INFO_COMPLETE, name := some "Old Name" }
      { patientId := some "p1", name := some "New Name",
        phone := some "1234567890", gender := some "MALE",
        age := some 30, city := some "Pune" }).1 = .ok 200 ∧
    patientPersonalInfo
      { id := "p1", email := "s@x.com", onboardingStep := .EMAIL_VERIFIED }
      { patientId := some "p1", name := some "New Name",
        phone := some "1234567890", gender := some "MALE",
        age := some 30, city := some "Pune" } =
      (.err 400 "INVALID_ONBOARDING_STEP",
       { id := "p1", email := "s@x.com", onboardingStep := .EMAIL_VERIFIED }) := by
  constructor
  · exact (C3_amended_redo_allowed.1 _ _ (by decide) rfl rfl).1
  · exact C3_amended_redo_allowed.2 _ _ (by decide) rfl rfl

/-- C1: on each Provider profile-completion endpoint, a request whose fields
pass validation but whose account sits at any step other than the one the
endpoint completes is rejected with INVALID_ONBOARDING_STEP and HTTP 400
and leaves the account unchanged; moreover every non-success outcome of
these endpoints (MISSING_FIELDS and every INVALID field error included)
leaves the account unchanged, because validation precedes the update. -/
theorem C1_invalid_step_gating :
    (∀ (d : Doctor) (b : DocPIBody), docPIValidate b = none →
      b.doctorId = some d.id → d.onboardingStep ≠ .PERSONAL_INFO_COMPLETE →
      onboardingPersonalInfo d b = (.err 400 "INVALID_ONBOARDING_STEP", d)) ∧
    (∀ (d : Doctor) (b : DocProfBody), docProfValidate b = none →
      b.doctorId = some d.id → d.onboardingStep ≠ .PROFESSIONAL_INFO_COMPLETE →
      onboardingProfessionalInfo d b = (.err 400 "INVALID_ONBOARDING_STEP", d)) ∧
    (∀ (d : Doctor) (b : DocAvailBody), docAvailValidate b = none →
      b.doctorId = some d.id → d.onboardingStep ≠ .AVAILABILITY_COMPLETE →
      onboardingAvailability d b = (.err 400 "INVALID_ONBOARDING_STEP", d)) ∧
    (∀ (d : Doctor) (b : DocPIBody), (onboardingPersonalInfo d b).1 ≠ .ok 200 →
      (onboardingPersonalInfo d b).2 = d) ∧
    (∀ (d : Doctor) (b : DocProfBody),
      (onboardingProfessionalInfo d b).1 ≠ .ok 200 →
      (onboardingProfessionalInfo d b).2 = d) ∧
    (∀ (d : Doctor) (b : DocAvailBody),
      (onboardingAvailability d b).1 ≠ .ok 200 →
      (onboardingAvailability d b).2 = d) := by
  refine ⟨?_, ?_, ?_, ?_, ?_, ?_⟩
  · intro d b hv hid hstep
    simp [onboardingPersonalInfo, hv, hid, hstep]
  · intro d b hv hid hstep
    simp [onboardingProfessionalInfo, hv, hid, hstep]
  · intro d b hv hid hstep
    simp [onboardingAvailability, hv, hid, hstep]
  · intro d b h
    unfold onboardingPersonalInfo at h ⊢
    cases hv : docPIValidate b <;> simp [hv] at h ⊢
    split_ifs at h ⊢ <;> simp_all
  · intro d b h
    unfold onboardingProfessionalInfo at h ⊢
    cases hv : docProfValidate b <;> simp [hv] at h ⊢
    split_ifs at h ⊢ <;> simp_all
  · intro d b h
    unfold onboardingAvailability at h ⊢
    cases hv : docAvailValidate b <;> simp [hv] at h ⊢
    split_ifs at h ⊢ <;> simp_all

/-- C1 witness: a Provider still at EMAIL_VERIFIED submitting valid
professional info is rejected with INVALID_ONBOARDING_STEP, unchanged. -/
theorem C1_witness :
    onboardingProfessionalInfo
      { id := "d1", email := "d@x.com", onboardingStep := .EMAIL_VERIFIED }
      { doctorId := some "d1", specialty := some "Cardiology",
        yearsOfExperience := some 10, latestQualification := some "MD" } =
      (.err 400 "INVALID_ONBOARDING_STEP",
       { id := "d1", email := "d@x.com", onboardingStep := .EMAIL_VERIFIED }) :=
  C1_invalid_step_gating.2.1 _ _ (by decide) rfl (by decide)

/-- A string passing the email regex is nonempty. -/
theorem validateEmail_nonempty {s : String} (h : validateEmail s = true) :
    s ≠ "" := by
  intro hs; subst hs; revert h; decide

/-- A string passing the six-digit OTP format gate is nonempty. -/
theorem isOtpFormat_nonempty {s : String} (h : isOtpFormat s = true) :
    s ≠ "" := by
  intro hs; subst hs; revert h; decide

/-- C2: for an account with a pending code and expiry, verification succeeds
iff the submitted well-formed code equals the stored one and the current
time does not exceed the expiry; success nulls the code and expiry and sets
the step to PERSONAL_INFO_COMPLETE, so an immediate re-submission fails
OTP_NOT_FOUND; a mismatching code fails INVALID_OTP and an expired matching
code fails OTP_EXPIRED.  Stated for both the Provider and Seeker variants. -/
theorem C2_otp_verification :
    (∀ (d : Doctor) (c : String) (e now now2 : Nat),
      d.otp = some c → d.otpExpiry = some e → isOtpFormat c = true →
      validateEmail d.email = true →
      (∀ s, isOtpFormat s = true →
        ((verifyOtp d (some d.email) (some s) now).1 = .ok 200 ↔
          s = c ∧ now ≤ e)) ∧
      (now ≤ e →
        verifyOtp d (some d.email) (some c) now =
          (.ok 200,
            { d with otp := none, otpExpiry := none,
                     onboardingStep := .PERSONAL_INFO_COMPLETE }) ∧
        (verifyOtp
            { d with otp := none, otpExpiry := none,
                     onboardingStep := .PERSONAL_INFO_COMPLETE }
           (some d.email) (some c) now2).1 = .err 400 "OTP_NOT_FOUND") ∧
      (∀ s, isOtpFormat s = true → s ≠ c →
        verifyOtp d (some d.email) (some s) now = (.err 400 "INVALID_OTP", d)) ∧
      (e < now →
        verifyOtp d (some d.email) (some c) now = (.err 400 "OTP_EXPIRED", d))) ∧
    (∀ (p : Patient) (c : String) (e now now2 : Nat),
      p.otp = some c → p.otpExpiry = some e → isOtpFormat c = true →
      validateEmail p.email = true →
      (∀ s, isOtpFormat s = true →
        ((verifyOtpPatient p (some p.email) (some s) now).1 = .ok 200 ↔
          s = c ∧ now ≤ e)) ∧
      (now ≤ e →
        verifyOtpPatient p (some p.email) (some c) now =
          (.ok 200,
            { p with otp := none, otpExpiry := none,
                     onboardingStep := .PERSONAL_INFO_COMPLETE }) ∧
        (verifyOtpPatient
            { p with otp := none, otpExpiry := none,
                     onboardingStep := .PERSONAL_INFO_COMPLETE }
           (some p.email) (some c) now2).1 = .err 400 "OTP_NOT_FOUND") ∧
      (∀ s, isOtpFormat s = true → s ≠ c →
        verifyOtpPatient p (some p.email) (some s) now =
          (.err 400 "INVALID_OTP", p)) ∧
      (e < now →
        verifyOtpPatient p (some p.email) (some c) now =
          (.err 400 "OTP_EXPIRED", p))) := by
  constructor
  · intro d c e now now2 hc he hfmt hval
    have hne : d.email ≠ "" := validateEmail_nonempty hval
    have hcne : c ≠ "" := isOtpFormat_nonempty hfmt
    refine ⟨?_, ?_, ?_, ?_⟩
    · intro s hs
      have hsne : s ≠ "" := isOtpFormat_nonempty hs
      by_cases hsc : s = c
      · subst hsc
        by_cases hle : now ≤ e
        · simp [verifyOtp, truthyStr, hne, hsne, hval, hs, hc, he, hle,
                Nat.not_lt.2 hle]
        · have hgt : e < now := Nat.not_le.mp hle
          simp [verifyOtp, truthyStr, hne, hsne, hval, hs, hc, he, hle, hgt]
      · have hcs : c ≠ s := Ne.symm hsc
        simp [verifyOtp, truthyStr, hne, hsne, hcne, hval, hs, hc, he, hsc,
              hcs]
    · intro hle
      constructor
      · simp [verifyOtp, truthyStr, hne, hcne, hval, hfmt, hc, he,
              Nat.not_lt.2 hle]
      · simp [verifyOtp, truthyStr, hne, hcne, hval, hfmt]
    · intro s hs hsc
      have hsne : s ≠ "" := isOtpFormat_nonempty hs
      have hcs : c ≠ s := Ne.symm hsc
      simp [verifyOtp, truthyStr, hne, hsne, hcne, hval, hs, hc, he, hcs]
    · intro hgt
      simp [verifyOtp, truthyStr, hne, hcne, hval, hfmt, hc, he, hgt]
  · intro p c e now now2 hc he hfmt hval
    have hne : p.email ≠ "" := validateEmail_nonempty hval
    have hcne : c ≠ "" := isOtpFormat_nonempty hfmt
    refine ⟨?_, ?_, ?_, ?_⟩
    · intro s hs
      have hsne : s ≠ "" := isOtpFormat_nonempty hs
      by_cases hsc : s = c
      · subst hsc
        by_cases hle : now ≤ e
        · simp [verifyOtpPatient, truthyStr, hne, hsne, hval, hs, hc, he, hle,
                Nat.not_lt.2 hle]
        · have hgt : e < now := Nat.not_le.mp hle
          simp [verifyOtpPatient, truthyStr, hne, hsne, hval, hs, hc, he, hle,
                hgt]
      · have hcs : c ≠ s := Ne.symm hsc
        simp [verifyOtpPatient, truthyStr, hne, hsne, hcne, hval, hs, hc, he,
              hsc, hcs]
    · intro hle
      constructor
      · simp [verifyOtpPatient, truthyStr, hne, hcne, hval, hfmt, hc, he,
              Nat.not_lt.2 hle]
      · simp [verifyOtpPatient, truthyStr, hne, hcne, hval, hfmt]
    · intro s hs hsc
      have hsne : s ≠ "" := isOtpFormat_nonempty hs
      have hcs : c ≠ s := Ne.symm hsc
      simp [verifyOtpPatient, truthyStr, hne, hsne, hcne, hval, hs, hc, he,
            hcs]
    · intro hgt
      simp [verifyOtpPatient, truthyStr, hne, hcne, hval, hfmt, hc, he, hgt]

/-- C2 witness: a concrete Provider account with pending code 123456 and
expiry 1000: the matching code at time 1000 succeeds, consuming the code. -/
theorem C2_witness :
    verifyOtp
      { id := "d1", email := "d@x.com", otp := some "123456",
        otpExpiry := some 1000, onboardingStep := .EMAIL_VERIFIED }
      (some "d@x.com") (some "123456") 1000 =
      (.ok 200,
       { id := "d1", email := "d@x.com", otp := none, otpExpiry := none,
         onboardingStep := .PERSONAL_INFO_COMPLETE }) :=
  ((C2_otp_verification.1
      { id := "d1", email := "d@x.com", otp := some "123456",
        otpExpiry := some 1000, onboardingStep := .EMAIL_VERIFIED }
      "123456" 1000 1000 1000 rfl rfl (by decide) (by decide)).2.1
    (by decide)).1

/-- C4: Register fails MISSING_FIELDS when either argument is absent (or
falsy), INVALID_EMAIL when the email fails the pattern, INVALID_PASSWORD
when the password fails its rules with the first of length, uppercase,
lowercase, digit winning, and EMAIL_ALREADY_EXISTS with HTTP 409 when the
email is taken, leaving the store unchanged; on success it persists a new
account at step EMAIL_VERIFIED whose code is the 6-digit value in
100000 to 999999 drawn from the random parameter, with expiry now plus ten
minutes, and returns the new account identifier. -/
theorem C4_register :
    (∀ (db : List Doctor) (email password : Option String) (newId hpw : String)
       (r now : Nat) (env : Env) (mail : MailOutcome),
      (truthyStr email && truthyStr password) = false →
      onboardingAuth db email password newId hpw r now env mail =
        (.err 400 "MISSING_FIELDS", db)) ∧
    (∀ (db : List Doctor) (email password : Option String) (newId hpw : String)
       (r now : Nat) (env : Env) (mail : MailOutcome),
      truthyStr email = true → truthyStr password = true →
      validateEmail (email.getD "") = false →
      onboardingAuth db email password newId hpw r now env mail =
        (.err 400 "INVALID_EMAIL", db)) ∧
    (∀ (db : List Doctor) (email password : Option String) (newId hpw : String)
       (r now : Nat) (env : Env) (mail : MailOutcome),
      truthyStr email = true → truthyStr password = true →
      validateEmail (email.getD "") = true →
      (validatePassword (password.getD "")).isSome = true →
      onboardingAuth db email password newId hpw r now env mail =
        (.err 400 "INVALID_PASSWORD", db)) ∧
    ((∀ pw : String, pw.length < 8 →
      validatePassword pw = some "Password must be at least 8 characters long") ∧
     (∀ pw : String, ¬ pw.length < 8 → pw.data.any Char.isUpper = false →
      validatePassword pw =
        some "Password must contain at least one uppercase letter") ∧
     (∀ pw : String, ¬ pw.length < 8 → pw.data.any Char.isUpper = true →
      pw.data.any Char.isLower = false →
      validatePassword pw =
        some "Password must contain at least one lowercase letter") ∧
     (∀ pw : String, ¬ pw.length < 8 → pw.data.any Char.isUpper = true →
      pw.data.any Char.isLower = true → pw.data.any Char.isDigit = false →
      validatePassword pw =
        some "Password must contain at least one number")) ∧
    (∀ (db : List Doctor) (email password : Option String) (newId hpw : String)
       (r now : Nat) (env : Env) (mail : MailOutcome),
      truthyStr email = true → truthyStr password = true →
      validateEmail (email.getD "") = true →
      validatePassword (password.getD "") = none →
      (db.find? (fun d => decide (d.email = email.getD ""))).isSome = true →
      onboardingAuth db email password newId hpw r now env mail =
        (.err 409 "EMAIL_ALREADY_EXISTS", db)) ∧
    (∀ (db : List Doctor) (email password : Option String) (newId hpw : String)
       (r now : Nat) (env : Env) (mail : MailOutcome),
      truthyStr email = true → truthyStr password = true →
      validateEmail (email.getD "") = true →
      validatePassword (password.getD "") = none →
      db.find? (fun d => decide (d.email = email.getD "")) = none →
      (onboardingAuth db email password newId hpw r now env mail).2 =
        db ++ [freshDoctor newId (email.getD "") hpw (generateOTP r)
                 (now + 10 * 60 * 1000)] ∧
      (mail = .sendOk →
        (onboardingAuth db email password newId hpw r now env mail).1 =
          .ok ⟨201, newId, none, false⟩)) ∧
    (∀ r : Nat, 100000 ≤ generateOTPNum r ∧ generateOTPNum r ≤ 999999) ∧
    (∀ (newId e hpw otp : String) (expiry : Nat),
      (freshDoctor newId e hpw otp expiry).onboardingStep = .EMAIL_VERIFIED ∧
      (freshDoctor newId e hpw otp expiry).otp = some otp ∧
      (freshDoctor newId e hpw otp expiry).otpExpiry = some expiry ∧
      (freshDoctor newId e hpw otp expiry).id = newId) := by
  refine ⟨?_, ?_, ?_, ⟨?_, ?_, ?_, ?_⟩, ?_, ?_, ?_, ?_⟩
  · intro db email password newId hpw r now env mail hm
    simp [onboardingAuth, hm]
  · intro db email password newId hpw r now env mail ht hp hv
    simp [onboardingAuth, ht, hp, hv]
  · intro db email password newId hpw r now env mail ht hp hv hpw
    simp [onboardingAuth, ht, hp, hv, hpw]
  · intro pw h
    simp [validatePassword, h]
  · intro pw h1 h2
    simp [validatePassword, h1, h2]
  · intro pw h1 h2 h3
    simp [validatePassword, h1, h2, h3]
  · intro pw h1 h2 h3 h4
    simp [validatePassword, h1, h2, h3, h4]
  · intro db email password newId hpw r now env mail ht hp hv hpw hfind
    simp [onboardingAuth, ht, hp, hv, hpw, hfind]
  · intro db email password newId hpw r now env mail ht hp hv hpw hfind
    constructor
    · cases mail <;>
        simp [onboardingAuth, ht, hp, hv, hpw, hfind]
      split_ifs <;> rfl
    · intro hmail
      subst hmail
      simp [onboardingAuth, ht, hp, hv, hpw, hfind]
  · intro r
    have h := Nat.mod_lt r (show 0 < 900000 by norm_num)
    unfold generateOTPNum
    omega
  · intro newId e hpw otp expiry
    exact ⟨rfl, rfl, rfl, rfl⟩

/-- C4 witness: a concrete successful registration with concrete failures of
each validation stage. -/
theorem C4_witness :
    onboardingAuth [] (some "doctor@x.com") (some "Passw0rd") "d1" "hash" 7 0
      ⟨false, false⟩ .sendOk =
      (.ok ⟨201, "d1", none, false⟩,
       [freshDoctor "d1" "doctor@x.com" "hash" (generateOTP 7) 600000]) ∧
    onboardingAuth [] none (some "Passw0rd") "d1" "hash" 7 0
      ⟨false, false⟩ .sendOk = (.err 400 "MISSING_FIELDS", []) ∧
    onboardingAuth [] (some "doctor") (some "Passw0rd") "d1" "hash" 7 0
      ⟨false, false⟩ .sendOk = (.err 400 "INVALID_EMAIL", []) ∧
    onboardingAuth [] (some "doctor@x.com") (some "password") "d1" "hash" 7 0
      ⟨false, false⟩ .sendOk = (.err 400 "INVALID_PASSWORD", []) ∧
    onboardingAuth [freshDoctor "d0" "doctor@x.com" "h" "123456" 0]
      (some "doctor@x.com") (some "Passw0rd") "d1" "hash" 7 0
      ⟨false, false⟩ .sendOk =
      (.err 409 "EMAIL_ALREADY_EXISTS",
       [freshDoctor "d0" "doctor@x.com" "h" "123456" 0]) := by
  have hs := C4_register.2.2.2.2.2.1 [] (some "doctor@x.com") (some "Passw0rd")
    "d1" "hash" 7 0 ⟨false, false⟩ .sendOk rfl rfl (by decide) (by decide) rfl
  refine ⟨?_, ?_, ?_, ?_, ?_⟩
  · have h2 := hs.2 rfl
    have h1 := hs.1
    cases hr : onboardingAuth [] (some "doctor@x.com") (some "Passw0rd")
      "d1" "hash" 7 0 ⟨false, false⟩ .sendOk
    rw [hr] at h1 h2
    simp at h1 h2
    simp [h1, h2]
  · exact C4_register.1 [] none (some "Passw0rd") "d1" "hash" 7 0
      ⟨false, false⟩ .sendOk rfl
  · exact C4_register.2.1 [] (some "doctor") (some "Passw0rd") "d1" "hash" 7 0
      ⟨false, false⟩ .sendOk rfl rfl (by decide)
  · exact C4_register.2.2.1 [] (some "doctor@x.com") (some "password") "d1"
      "hash" 7 0 ⟨false, false⟩ .sendOk rfl rfl (by decide) (by decide)
  · exact C4_register.2.2.2.2.1 [freshDoctor "d0" "doctor@x.com" "h" "123456" 0]
      (some "doctor@x.com") (some "Passw0rd") "d1" "hash" 7 0 ⟨false, false⟩
      .sendOk rfl rfl (by decide) (by decide) (by decide)

/-- C5 counterexample: in a production environment with the mock-OTP escape
hatch off, a valid registration whose email delivery fails returns the hard
failure EMAIL_SEND_FAILED with HTTP 500 instead of a success response that
echoes the code; the account is nevertheless persisted. -/
theorem C5_counterexample :
    (onboardingAuth [] (some "doctor@x.com") (some "Passw0rd") "d1" "hash" 7 0
      ⟨true, false⟩ .sendFail).1 = .err 500 "EMAIL_SEND_FAILED" ∧
    (onboardingAuth [] (some "doctor@x.com") (some "Passw0rd") "d1" "hash" 7 0
      ⟨true, false⟩ .sendFail).2 =
      [freshDoctor "d1" "doctor@x.com" "hash" (generateOTP 7) 600000] := by
  constructor <;> rfl

/-- C5 amended: account creation is committed before the mail attempt, so
the new account persists whatever the mail outcome; when the transport is
unavailable the response is a 200 success that echoes the code only outside
production; when a send fails the response is a 200 success echoing the
code with a warning in development (or with ALLOW_MOCK_OTP set), but in
production it is a hard 500 EMAIL_SEND_FAILED, which still does not roll
back the created account. -/
theorem C5_amended_mail_fallback :
    ∀ (db : List Doctor) (email password : Option String) (newId hpw : String)
      (r now : Nat) (env : Env),
      truthyStr email = true → truthyStr password = true →
      validateEmail (email.getD "") = true →
      validatePassword (password.getD "") = none →
      db.find? (fun d => decide (d.email = email.getD "")) = none →
      (env.production = false →
        onboardingAuth db email password newId hpw r now env .noTransport =
          (.ok ⟨200, newId, some (generateOTP r), false⟩,
           db ++ [freshDoctor newId (email.getD "") hpw (generateOTP r)
                    (now + 10 * 60 * 1000)])) ∧
      (env.production = true →
        onboardingAuth db email password newId hpw r now env .noTransport =
          (.ok ⟨200, newId, none, false⟩,
           db ++ [freshDoctor newId (email.getD "") hpw (generateOTP r)
                    (now + 10 * 60 * 1000)])) ∧
      (env.production = false ∨ env.allowMockOtp = true →
        onboardingAuth db email password newId hpw r now env .sendFail =
          (.ok ⟨200, newId, some (generateOTP r), true⟩,
           db ++ [freshDoctor newId (email.getD "") hpw (generateOTP r)
                    (now + 10 * 60 * 1000)])) ∧
      (env.production = true → env.allowMockOtp = false →
        onboardingAuth db email password newId hpw r now env .sendFail =
          (.err 500 "EMAIL_SEND_FAILED",
           db ++ [freshDoctor newId (email.getD "") hpw (generateOTP r)
                    (now + 10 * 60 * 1000)])) := by
  intro db email password newId hpw r now env ht hp hv hpw hfind
  refine ⟨?_, ?_, ?_, ?_⟩
  · intro hprod
    simp [onboardingAuth, ht, hp, hv, hpw, hfind, hprod]
  · intro hprod
    simp [onboardingAuth, ht, hp, hv, hpw, hfind, hprod]
  · rintro (hprod | hmock)
    · simp [onboardingAuth, ht, hp, hv, hpw, hfind, hprod]
    · simp [onboardingAuth, ht, hp, hv, hpw, hfind, hmock]
  · intro hprod hmock
    simp [onboardingAuth, ht, hp, hv, hpw, hfind, hprod, hmock]

/-- C5 witness: a development-mode send failure echoes the code with a
warning and keeps the created account. -/
theorem C5_witness :
    onboardingAuth [] (some "doctor@x.com") (some "Passw0rd") "d1" "hash" 7 0
      ⟨false, false⟩ .sendFail =
      (.ok ⟨200, "d1", some (generateOTP 7), true⟩,
       [freshDoctor "d1" "doctor@x.com" "hash" (generateOTP 7) 600000]) :=
  (C5_amended_mail_fallback [] (some "doctor@x.com") (some "Passw0rd") "d1"
    "hash" 7 0 ⟨false, false⟩ rfl rfl (by decide) (by decide) rfl).2.2.1
    (Or.inl rfl)

/-- If a scan of the list finds nothing, a scan of the list extended by one
matching element finds exactly that element. -/
theorem find?_append_singleton {α : Type _} (p : α → Bool) (l : List α) (x : α)
    (h : ∀ y ∈ l, p y = false) (hx : p x = true) :
    (l ++ [x]).find? p = some x := by
  induction l with
  | nil => simp [List.find?, hx]
  | cons a t ih =>
    have ha : p a = false := h a (List.mem_cons_self a t)
    rw [List.cons_append, List.find?_cons, ha]
    exact ih (fun y hy => h y (List.mem_cons_of_mem a hy))

/-- Filtering is idempotent. -/
theorem filter_idem {α : Type _} (q : α → Bool) (l : List α) :
    (l.filter q).filter q = l.filter q := by
  induction l with
  | nil => rfl
  | cons a t ih =>
    cases hq : q a <;> simp [List.filter_cons, hq, ih]

/-- A string passing the UUID shape check is nonempty. -/
theorem isValidUUID_nonempty {s : String} (h : isValidUUID s = true) :
    s ≠ "" := by
  intro hs; subst hs; revert h; decide

/-- C6 counterexample: a Seeker account matched by its external-identity
reference whose stored name is present but whose phone and city are absent
is routed to the dashboard, so routing is not the all-of-name-phone-city
completion condition the claim states. -/
theorem C6_counterexample :
    (handleGoogleAuthPatient
      [{ id := "p1", email := "s@x.com", googleId := some "g1",
         name := some "Al" }]
      "g1" "s@x.com" "Al" "n1").1.redirectTo = "/dashboard" ∧
    ({ id := "p1", email := "s@x.com", googleId := some "g1",
       name := some "Al" } : Patient).phone = none ∧
    ({ id := "p1", email := "s@x.com", googleId := some "g1",
       name := some "Al" } : Patient).city = none := by
  refine ⟨rfl, rfl, rfl⟩

/-- C6 amended: when the external-identity reference matches an
already-linked Seeker account, the handler reports the user as neither new
nor returning-incomplete and leaves the store unchanged, but routes to the
dashboard iff the stored name alone is present (truthy); phone and city are
not consulted on this branch. -/
theorem C6_amended_google_match_routing :
    ∀ (db : List Patient) (gid email name newId : String) (p : Patient),
      db.find? (fun x => decide (x.googleId = some gid)) = some p →
      handleGoogleAuthPatient db gid email name newId =
        (⟨false, false, p.id,
          if truthyStr p.name then "/dashboard" else "/onboarding"⟩, db) := by
  intro db gid email name newId p hfind
  simp [handleGoogleAuthPatient, hfind]

/-- C6 witness: concrete account with a name but no phone routed to the
dashboard by the amended rule. -/
theorem C6_witness :
    handleGoogleAuthPatient
      [{ id := "p1", email := "s@x.com", googleId := some "g1",
         name := some "Al" }]
      "g1" "s@x.com" "Al" "n1" =
      (⟨false, false, "p1", "/dashboard"⟩,
       [{ id := "p1", email := "s@x.com", googleId := some "g1",
          name := some "Al" }]) := by
  have h := C6_amended_google_match_routing
    [{ id := "p1", email := "s@x.com", googleId := some "g1",
       name := some "Al" }]
    "g1" "s@x.com" "Al" "n1"
    { id := "p1", email := "s@x.com", googleId := some "g1",
      name := some "Al" } (by decide)
  simpa using h

/-- C7: when no account carries the external-identity reference but the
email matches a complete account, the handler attaches the reference and
changes nothing else: the updated row differs from the old one only in
googleId (name, every profile field and the step marker are equal), rows
with a different email are untouched, and the response routes to the
dashboard reporting neither new nor returning-incomplete.  Stated for both
the Provider and the Seeker variants. -/
theorem C7_link_complete_frame :
    (∀ (db : List Doctor) (gid email name newId : String) (d : Doctor),
      db.find? (fun x => decide (x.googleId = some gid)) = none →
      db.find? (fun x => decide (x.email = email)) = some d →
      d.onboardingStep = .COMPLETE →
      handleGoogleAuthDoctor db gid email name newId =
        (⟨false, false, d.id, "/dashboard"⟩,
         db.map (fun x => if x.email = email then
           { d with googleId := some gid } else x)) ∧
      (∀ x ∈ db, x.email ≠ email →
        x ∈ (handleGoogleAuthDoctor db gid email name newId).2) ∧
      ({ d with googleId := some gid } : Doctor).name = d.name ∧
      ({ d with googleId := some gid } : Doctor).onboardingStep =
        d.onboardingStep ∧
      ({ d with googleId := some gid } : Doctor).email = d.email ∧
      ({ d with googleId := some gid } : Doctor).id = d.id ∧
      ({ d with googleId := some gid } : Doctor).password = d.password ∧
      ({ d with googleId := some gid } : Doctor).age = d.age ∧
      ({ d with googleId := some gid } : Doctor).gender = d.gender ∧
      ({ d with googleId := some gid } : Doctor).languages = d.languages ∧
      ({ d with googleId := some gid } : Doctor).contactNumber =
        d.contactNumber ∧
      ({ d with googleId := some gid } : Doctor).whatsappNumber =
        d.whatsappNumber ∧
      ({ d with googleId := some gid } : Doctor).specialty = d.specialty ∧
      ({ d with googleId := some gid } : Doctor).yearsOfExperience =
        d.yearsOfExperience ∧
      ({ d with googleId := some gid } : Doctor).latestQualification =
        d.latestQualification ∧
      ({ d with googleId := some gid } : Doctor).address = d.address ∧
      ({ d with googleId := some gid } : Doctor).city = d.city ∧
      ({ d with googleId := some gid } : Doctor).locality = d.locality ∧
      ({ d with googleId := some gid } : Doctor).availableDays =
        d.availableDays ∧
      ({ d with googleId := some gid } : Doctor).availableTiming =
        d.availableTiming) ∧
    (∀ (db : List Patient) (gid email name newId : String) (p : Patient),
      db.find? (fun x => decide (x.googleId = some gid)) = none →
      db.find? (fun x => decide (x.email = email)) = some p →
      (truthyStr p.name && truthyStr p.phone && truthyStr p.city) = true →
      handleGoogleAuthPatient db gid email name newId =
        (⟨false, false, p.id, "/dashboard"⟩,
         db.map (fun x => if x.email = email then
           { p with googleId := some gid } else x)) ∧
      (∀ x ∈ db, x.email ≠ email →
        x ∈ (handleGoogleAuthPatient db gid email name newId).2) ∧
      ({ p with googleId := some gid } : Patient).name = p.name ∧
      ({ p with googleId := some gid } : Patient).onboardingStep =
        p.onboardingStep ∧
      ({ p with googleId := some gid } : Patient).email = p.email ∧
      ({ p with googleId := some gid } : Patient).id = p.id ∧
      ({ p with googleId := some gid } : Patient).password = p.password ∧
      ({ p with googleId := some gid } : Patient).phone = p.phone ∧
      ({ p with googleId := some gid } : Patient).gender = p.gender ∧
      ({ p with googleId := some gid } : Patient).age = p.age ∧
      ({ p with googleId := some gid } : Patient).city = p.city) := by
  constructor
  · intro db gid email name newId d h1 h2 hstep
    have hmain : handleGoogleAuthDoctor db gid email name newId =
        (⟨false, false, d.id, "/dashboard"⟩,
         db.map (fun x => if x.email = email then
           { d with googleId := some gid } else x)) := by
      simp [handleGoogleAuthDoctor, h1, h2, hstep]
    refine ⟨hmain, ?_, rfl, rfl, rfl, rfl, rfl, rfl, rfl, rfl, rfl, rfl, rfl,
            rfl, rfl, rfl, rfl, rfl, rfl, rfl⟩
    intro x hx hne
    rw [hmain]
    exact List.mem_map.mpr ⟨x, hx, if_neg hne⟩
  · intro db gid email name newId p h1 h2 hcomp
    have hmain : handleGoogleAuthPatient db gid email name newId =
        (⟨false, false, p.id, "/dashboard"⟩,
         db.map (fun x => if x.email = email then
           { p with googleId := some gid } else x)) := by
      simp [handleGoogleAuthPatient, h1, h2, hcomp]
    refine ⟨hmain, ?_, rfl, rfl, rfl, rfl, rfl, rfl, rfl, rfl, rfl⟩
    intro x hx hne
    rw [hmain]
    exact List.mem_map.mpr ⟨x, hx, if_neg hne⟩

/-- C7 witness: a complete Provider account gains the googleId link and is
routed to the dashboard, all other fields intact. -/
theorem C7_witness :
    handleGoogleAuthDoctor
      [{ id := "d1", email := "d@x.com", name := some "Dr A",
         onboardingStep := .COMPLETE }]
      "g9" "d@x.com" "Google Name" "n1" =
      (⟨false, false, "d1", "/dashboard"⟩,
       [{ id := "d1", email := "d@x.com", googleId := some "g9",
          name := some "Dr A", onboardingStep := .COMPLETE }]) := by
  have h := (C7_link_complete_frame.1
    [{ id := "d1", email := "d@x.com", name := some "Dr A",
       onboardingStep := .COMPLETE }]
    "g9" "d@x.com" "Google Name" "n1"
    { id := "d1", email := "d@x.com", name := some "Dr A",
      onboardingStep := .COMPLETE } (by decide) (by decide) rfl).1
  simpa using h

/-- C8 counterexample: a Seeker created fresh by the external-identity call
(outcome 3) with a non-empty display name is routed to onboarding, but the
identical retry matches by the reference (outcome 1) and is routed to the
dashboard, so the completion routing of the two calls differs. -/
theorem C8_counterexample :
    (handleGoogleAuthPatient [] "g1" "s@x.com" "Jo" "p1").1.redirectTo =
      "/onboarding" ∧
    (handleGoogleAuthPatient
      (handleGoogleAuthPatient [] "g1" "s@x.com" "Jo" "p1").2
      "g1" "s@x.com" "Jo" "p2").1.redirectTo = "/dashboard" ∧
    (handleGoogleAuthPatient [] "g1" "s@x.com" "Jo" "p1").1.userId = "p1" ∧
    (handleGoogleAuthPatient
      (handleGoogleAuthPatient [] "g1" "s@x.com" "Jo" "p1").2
      "g1" "s@x.com" "Jo" "p2").1.userId = "p1" := by
  refine ⟨rfl, rfl, rfl, rfl⟩

/-- C8 amended: a repeat of the external-identity call after outcome 1 or 3
always reproduces the same account identifier and creates no duplicate row
(the store is unchanged by the retry, and unchanged by outcome 1 at all);
the routing of the retry is also identical after outcome 1 and, for the
Provider variant, after outcome 3; but for a Seeker created by outcome 3
the retry routes to the dashboard whenever the supplied display name is
non-empty, while the creating call routed to onboarding. -/
theorem C8_amended_idempotency :
    (∀ (db : List Doctor) (gid email name newId : String) (d : Doctor),
      db.find? (fun x => decide (x.googleId = some gid)) = some d →
      (handleGoogleAuthDoctor db gid email name newId).2 = db ∧
      (handleGoogleAuthDoctor db gid email name newId).1.userId = d.id) ∧
    (∀ (db : List Patient) (gid email name newId : String) (p : Patient),
      db.find? (fun x => decide (x.googleId = some gid)) = some p →
      (handleGoogleAuthPatient db gid email name newId).2 = db ∧
      (handleGoogleAuthPatient db gid email name newId).1.userId = p.id) ∧
    (∀ (db : List Doctor) (gid email name newId newId2 : String),
      (∀ y ∈ db, decide (y.googleId = some gid) = false) →
      db.find? (fun x => decide (x.email = email)) = none →
      handleGoogleAuthDoctor db gid email name newId =
        (⟨true, false, newId, "/onboarding"⟩,
         db ++ [googleDoctor newId email gid name]) ∧
      handleGoogleAuthDoctor (db ++ [googleDoctor newId email gid name])
          gid email name newId2 =
        (⟨false, true, newId, "/onboarding"⟩,
         db ++ [googleDoctor newId email gid name])) ∧
    (∀ (db : List Patient) (gid email name newId newId2 : String),
      (∀ y ∈ db, decide (y.googleId = some gid) = false) →
      db.find? (fun x => decide (x.email = email)) = none →
      handleGoogleAuthPatient db gid email name newId =
        (⟨true, false, newId, "/onboarding"⟩,
         db ++ [googlePatient newId email gid name]) ∧
      handleGoogleAuthPatient (db ++ [googlePatient newId email gid name])
          gid email name newId2 =
        (⟨false, false, newId,
          if truthyStr (some name) then "/dashboard" else "/onboarding"⟩,
         db ++ [googlePatient newId email gid name])) := by
  refine ⟨?_, ?_, ?_, ?_⟩
  · intro db gid email name newId d hfind
    by_cases hc : d.onboardingStep = .COMPLETE <;>
      simp [handleGoogleAuthDoctor, hfind, hc]
  · intro db gid email name newId p hfind
    simp [handleGoogleAuthPatient, hfind]
  · intro db gid email name newId newId2 h1 h2
    have h1n : db.find? (fun x => decide (x.googleId = some gid)) = none :=
      List.find?_eq_none.mpr (fun y hy => by simpa using h1 y hy)
    have hfresh : (db ++ [googleDoctor newId email gid name]).find?
        (fun x => decide (x.googleId = some gid)) =
        some (googleDoctor newId email gid name) :=
      find?_append_singleton _ _ _ (fun y hy => by simpa using h1 y hy)
        (by simp [googleDoctor])
    constructor
    · simp [handleGoogleAuthDoctor, h1n, h2]
    · unfold handleGoogleAuthDoctor
      rw [hfresh]
      simp [googleDoctor]
  · intro db gid email name newId newId2 h1 h2
    have h1n : db.find? (fun x => decide (x.googleId = some gid)) = none :=
      List.find?_eq_none.mpr (fun y hy => by simpa using h1 y hy)
    have hfresh : (db ++ [googlePatient newId email gid name]).find?
        (fun x => decide (x.googleId = some gid)) =
        some (googlePatient newId email gid name) :=
      find?_append_singleton _ _ _ (fun y hy => by simpa using h1 y hy)
        (by simp [googlePatient])
    constructor
    · simp [handleGoogleAuthPatient, h1n, h2]
    · unfold handleGoogleAuthPatient
      rw [hfresh]
      simp [googlePatient, truthyStr]

/-- C8 witness: a Provider created by outcome 3 is reproduced stably by the
retry: same account id, same onboarding routing, no duplicate row. -/
theorem C8_witness :
    handleGoogleAuthDoctor [] "g1" "d@x.com" "Dr A" "d1" =
      (⟨true, false, "d1", "/onboarding"⟩,
       [googleDoctor "d1" "d@x.com" "g1" "Dr A"]) ∧
    handleGoogleAuthDoctor [googleDoctor "d1" "d@x.com" "g1" "Dr A"]
        "g1" "d@x.com" "Dr A" "d2" =
      (⟨false, true, "d1", "/onboarding"⟩,
       [googleDoctor "d1" "d@x.com" "g1" "Dr A"]) := by
  have h := C8_amended_idempotency.2.2.1 [] "g1" "d@x.com" "Dr A" "d1" "d2"
    (by intro y hy; cases hy) rfl
  exact ⟨h.1, h.2⟩

/-- C9: for an existing Seeker and Provider with well-formed ids and an
unsaved pair, the first Save succeeds and inserts the pair; a second Save
of the same pair fails DOCTOR_ALREADY_SAVED leaving the store unchanged;
Unsave then succeeds and the pair no longer appears in the relation nor in
the saved-doctors list; a repeated Unsave of the now-absent pair still
succeeds and changes nothing (idempotent deletion). -/
theorem C9_save_unsave :
    ∀ (st : Store) (pid did : String),
      isValidUUID pid = true → isValidUUID did = true →
      (st.patients.find? (fun p => decide (p.id = pid))).isSome = true →
      (st.doctors.find? (fun d => decide (d.id = did))).isSome = true →
      (pid, did) ∉ st.saved →
      saveDoctor st (some pid) (some did) =
        (.ok 200, { st with saved := st.saved ++ [(pid, did)] }) ∧
      (pid, did) ∈ (st.saved ++ [(pid, did)]) ∧
      saveDoctor { st with saved := st.saved ++ [(pid, did)] }
          (some pid) (some did) =
        (.err 400 "DOCTOR_ALREADY_SAVED",
         { st with saved := st.saved ++ [(pid, did)] }) ∧
      unsaveDoctor { st with saved := st.saved ++ [(pid, did)] }
          (some pid) (some did) =
        (.ok 200,
         { st with saved :=
             ((st.saved ++ [(pid, did)]).filter
               (fun pr => decide (pr ≠ (pid, did)))) }) ∧
      (pid, did) ∉ ((st.saved ++ [(pid, did)]).filter
          (fun pr => decide (pr ≠ (pid, did)))) ∧
      did ∉ getSavedDoctorIds
          { st with saved :=
              ((st.saved ++ [(pid, did)]).filter
                (fun pr => decide (pr ≠ (pid, did)))) } pid ∧
      unsaveDoctor
          { st with saved :=
              ((st.saved ++ [(pid, did)]).filter
                (fun pr => decide (pr ≠ (pid, did)))) } (some pid) (some did) =
        (.ok 200,
         { st with saved :=
             ((st.saved ++ [(pid, did)]).filter
               (fun pr => decide (pr ≠ (pid, did)))) }) := by
  intro st pid did hu1 hu2 hP hD hmem
  have hpne : pid ≠ "" := isValidUUID_nonempty hu1
  have hdne : did ≠ "" := isValidUUID_nonempty hu2
  obtain ⟨p0, hp0⟩ := Option.isSome_iff_exists.mp hP
  obtain ⟨d0, hd0⟩ := Option.isSome_iff_exists.mp hD
  refine ⟨?_, ?_, ?_, ?_, ?_, ?_, ?_⟩
  · simp [saveDoctor, truthyStr, hpne, hdne, hu1, hu2, hp0, hd0, hmem]
  · simp
  · simp [saveDoctor, truthyStr, hpne, hdne, hu1, hu2, hp0, hd0]
  · simp [unsaveDoctor, truthyStr, hpne, hdne, hp0]
  · simp [List.mem_filter]
  · intro hin
    rcases List.mem_map.mp hin with ⟨pr, hpr, hsnd⟩
    rcases List.mem_filter.mp hpr with ⟨hpr1, hpid⟩
    rcases List.mem_filter.mp hpr1 with ⟨_, hne2⟩
    have hfst : pr.1 = pid := by simpa using hpid
    have hpr4 : pr = (pid, did) := Prod.ext hfst hsnd
    rw [hpr4] at hne2
    simp at hne2
  · have hfi := filter_idem (fun pr => decide (pr ≠ (pid, did)))
      (st.saved ++ [(pid, did)])
    simp [unsaveDoctor, truthyStr, hpne, hdne, hp0, hfi]

/-- C9 witness: concrete store with one Seeker and one Provider and an
empty relation: the full save, duplicate-save, unsave, repeat-unsave
lifecycle behaves as stated. -/
theorem C9_witness :
    saveDoctor
      { patients := [{ id := "00000000-0000-0000-0000-000000000001",
                       email := "s@x.com" }],
        doctors := [{ id := "00000000-0000-0000-0000-000000000002",
                      email := "d@x.com" }],
        saved := [] }
      (some "00000000-0000-0000-0000-000000000001")
      (some "00000000-0000-0000-0000-000000000002") =
      (.ok 200,
       { patients := [{ id := "00000000-0000-0000-0000-000000000001",
                        email := "s@x.com" }],
         doctors := [{ id := "00000000-0000-0000-0000-000000000002",
                       email := "d@x.com" }],
         saved := [("00000000-0000-0000-0000-000000000001",
                    "00000000-0000-0000-0000-000000000002")] }) :=
  (C9_save_unsave
    { patients := [{ id := "00000000-0000-0000-0000-000000000001",
                     email := "s@x.com" }],
      doctors := [{ id := "00000000-0000-0000-0000-000000000002",
                    email := "d@x.com" }],
      saved := [] }
    "00000000-0000-0000-0000-000000000001"
    "00000000-0000-0000-0000-000000000002"
    (by decide) (by decide) rfl rfl (by decide)).1

end ECare
